import Mathlib

/-!
Verification of the Self-Service Password Reset (SSPR) workflow of the
GLPI-auto-ticket backend (`backend/accounts/services.py`,
`backend/accounts/models.py`, `backend/accounts/constants.py`).

The embedding is shallow: each Django service function becomes a pure Lean
function, with the wall clock (`timezone.now()`) passed in as a `Nat`
measured in minutes, the database rows as explicit record values, and the
external Zoho collaborator as an explicit outcome parameter.  Every raised
`ValueError` / `ZohoException` branch of the Python source is mapped to a
distinct constructor of `SsprError`, following the distinct message
strings of the source.
-/

namespace Sspr

/-- Time is measured in minutes since an arbitrary epoch, mirroring
`timezone.now()` / `timedelta` arithmetic of the source. -/
abbrev Time := Nat

/-- `backend/accounts/constants.py`: `OTP_EXPIRY_MINUTES = 10`. -/
def OTP_EXPIRY_MINUTES : Nat := 10

/-- `backend/accounts/constants.py`: `RESET_REQUEST_EXPIRY_HOURS = 1`. -/
def RESET_REQUEST_EXPIRY_HOURS : Nat := 1

/-- `backend/accounts/constants.py`: `MAX_OTP_ATTEMPTS = 3` (the models
hard-code the literal `3` in `has_exceeded_attempts`). -/
def MAX_OTP_ATTEMPTS : Nat := 3

/-- `backend/accounts/constants.py`: `MAX_RESET_REQUESTS_PER_HOUR = 3`. -/
def MAX_RESET_REQUESTS_PER_HOUR : Nat := 3

/-- `SYSTEM_CHOICES` of `constants.py`: target system of a reset request. -/
inductive System
  | zoho
  | ad
  | both
deriving DecidableEq, Repr

/-- `RESET_REQUEST_STATUS_CHOICES` of `constants.py`. -/
inductive RequestStatus
  | pending
  | otp_validated
  | completed
  | expired
  | failed
deriving DecidableEq, Repr

/-- `OTP_STATUS_CHOICES` of `constants.py`. -/
inductive OtpStatus
  | pending
  | validated
  | expired
  | exceeded_attempts
deriving DecidableEq, Repr

/-- `OTP_METHOD_CHOICES` of `constants.py`. -/
inductive OtpMethod
  | sms
  | email
deriving DecidableEq, Repr

/-- Row of the `PasswordResetRequest` model (`models.py`), restricted to the
fields the workflow reads or writes. -/
structure PasswordResetRequest where
  token : String
  system : System
  identifier : String
  status : RequestStatus
  created_at : Time
  expires_at : Time
  completed_at : Option Time
deriving DecidableEq, Repr

/-- Row of the `OtpToken` model (`models.py`), restricted to the fields the
workflow reads or writes. -/
structure OtpToken where
  code : String
  method : OtpMethod
  status : OtpStatus
  attempts : Nat
  created_at : Time
  expires_at : Time
  validated_at : Option Time
deriving DecidableEq, Repr

/-- `PasswordResetRequest.is_expired`: `timezone.now() > self.expires_at`. -/
def PasswordResetRequest.is_expired (now : Time) (r : PasswordResetRequest) : Bool :=
  decide (now > r.expires_at)

/-- `OtpToken.is_expired`: `timezone.now() > self.expires_at`. -/
def OtpToken.is_expired (now : Time) (t : OtpToken) : Bool :=
  decide (now > t.expires_at)

/-- `OtpToken.has_exceeded_attempts`: `self.attempts >= 3`. -/
def OtpToken.has_exceeded_attempts (t : OtpToken) : Bool :=
  decide (t.attempts ≥ MAX_OTP_ATTEMPTS)

/-- `OtpToken.increment_attempts`: add one to `attempts`; if the incremented
counter has reached the ceiling, set status to `exceeded_attempts`. -/
def OtpToken.increment_attempts (t : OtpToken) : OtpToken :=
  let t1 : OtpToken := { t with attempts := t.attempts + 1 }
  if t1.has_exceeded_attempts then { t1 with status := .exceeded_attempts } else t1

/-- Distinct error exits of the service functions, one constructor per
distinct `raise` site / message of `services.py`. -/
inductive SsprError
  | rateLimited
  | accountNotFound
  | zohoLookupError
  | requestExpired
  | invalidRequestState
  | noPendingOtp
  | otpExpired
  | attemptsExceeded
  | notVerified
  | zohoResetFailed
  | zohoResetError
deriving DecidableEq, Repr

/-- A reset request together with its related `otp_tokens` rows.  The list is
kept ordered newest-first (the `OtpToken` model declares
`ordering = [-created_at]` and new tokens are the most recent). -/
structure VState where
  req : PasswordResetRequest
  tokens : List OtpToken
deriving DecidableEq, Repr

/-- The query `OtpToken.objects.filter(reset_request=.., status=pending)
.order_by(-created_at).first()` of `validate_otp`: the newest-first list
makes this the first pending token. -/
def findPending (tokens : List OtpToken) : Option OtpToken :=
  tokens.find? (fun t => t.status == .pending)

/-- Saving the mutated token row back: replace the first pending token (the
one `findPending` returned) by `f` of it. -/
def updateFirstPending (tokens : List OtpToken) (f : OtpToken → OtpToken) :
    List OtpToken :=
  match tokens with
  | [] => []
  | t :: ts =>
    if t.status == .pending then f t :: ts else t :: updateFirstPending ts f

/-- `services.generate_otp`: guard request expiry, guard request status,
then create a fresh pending token with a 10-minute TTL.  The random 6-digit
code is passed in as `code` (the model's `generate_code` draws it from
`secrets`). -/
def generate_otp (now : Time) (s : VState) (code : String) (method : OtpMethod) :
    VState × Except SsprError OtpToken :=
  if s.req.is_expired now then
    (⟨{ s.req with status := .expired }, s.tokens⟩, .error .requestExpired)
  else if s.req.status = .pending ∨ s.req.status = .otp_validated then
    let tok : OtpToken :=
      { code := code, method := method, status := .pending, attempts := 0,
        created_at := now, expires_at := now + OTP_EXPIRY_MINUTES,
        validated_at := none }
    (⟨s.req, tok :: s.tokens⟩, .ok tok)
  else
    (s, .error .invalidRequestState)

/-- Python `str.strip()` on the submitted code: drop leading and trailing
whitespace, written over the character list so that it reduces in the
kernel. -/
def strip (s : String) : String :=
  ⟨((s.data.dropWhile Char.isWhitespace).reverse.dropWhile Char.isWhitespace).reverse⟩

/-- `services.validate_otp`: request-expiry guard, newest pending token
lookup, token-expiry guard, attempt-ceiling guard, then the
`code != otp_code.strip()` comparison; on mismatch increment attempts and
return `False`, on match validate token and request. -/
def validate_otp (now : Time) (s : VState) (otp_code : String) :
    VState × Except SsprError Bool :=
  if s.req.is_expired now then
    (⟨{ s.req with status := .expired }, s.tokens⟩, .error .requestExpired)
  else
    match findPending s.tokens with
    | none => (s, .error .noPendingOtp)
    | some t =>
      if t.is_expired now then
        (⟨s.req, updateFirstPending s.tokens (fun u => { u with status := .expired })⟩,
         .error .otpExpired)
      else if t.has_exceeded_attempts then
        (s, .error .attemptsExceeded)
      else if t.code ≠ strip otp_code then
        (⟨s.req, updateFirstPending s.tokens OtpToken.increment_attempts⟩, .ok false)
      else
        (⟨{ s.req with status := .otp_validated },
          updateFirstPending s.tokens
            (fun u => { u with status := .validated, validated_at := some now })⟩,
         .ok true)

/-- Outcome of `ZohoClient().reset_password(...)` inside
`confirm_password_reset`: it returns `True`, returns a falsy value, or
raises `ZohoException`.  The external collaborator is passed in as data. -/
inductive ZohoOutcome
  | success
  | failure
  | exception
deriving DecidableEq, Repr

/-- The query of `confirm_password_reset` lines 257-261: an `otp_tokens` row
with `status=validated`, `validated_at__isnull=False` and
`expires_at__gt=now` exists.  Only existence is ever used (the row itself is
discarded after the truthiness test). -/
def hasValidatedUnexpired (now : Time) (tokens : List OtpToken) : Bool :=
  tokens.any (fun t =>
    t.status == .validated && t.validated_at.isSome && decide (now < t.expires_at))

/-- Result of `confirm_password_reset`: the mutated state, whether
`ZohoClient.reset_password` was invoked, whether control reached the
(unimplemented, log-only) AD block at line 303, and the returned value or
raised error. -/
structure ConfirmResult where
  state : VState
  zohoCalled : Bool
  adBlockReached : Bool
  result : Except SsprError Bool
deriving Repr

/-- `services.confirm_password_reset`: request-expiry guard, validated-OTP
guard, then the Zoho branch for `system ∈ {zoho, both}` (early `return True`
on success; on failure or exception restore `otp_validated` and raise) and
finally the log-only AD block for `system ∈ {ad, both}`.  `new_password` is
only forwarded to the collaborator. -/
def confirm_password_reset (now : Time) (s : VState) (new_password : String)
    (zoho : ZohoOutcome) : ConfirmResult :=
  let _ := new_password
  if s.req.is_expired now then
    { state := ⟨{ s.req with status := .expired }, s.tokens⟩,
      zohoCalled := false, adBlockReached := false,
      result := .error .requestExpired }
  else if hasValidatedUnexpired now s.tokens then
    if s.req.system = .zoho ∨ s.req.system = .both then
      match zoho with
      | .success =>
        { state := ⟨{ s.req with status := .completed, completed_at := some now },
                    s.tokens⟩,
          zohoCalled := true, adBlockReached := false, result := .ok true }
      | .failure =>
        { state := ⟨{ s.req with status := .otp_validated }, s.tokens⟩,
          zohoCalled := true, adBlockReached := false,
          result := .error .zohoResetFailed }
      | .exception =>
        { state := ⟨{ s.req with status := .otp_validated }, s.tokens⟩,
          zohoCalled := true, adBlockReached := false,
          result := .error .zohoResetError }
    else
      { state := s, zohoCalled := false, adBlockReached := true,
        result := .ok true }
  else
    { state := s, zohoCalled := false, adBlockReached := false,
      result := .error .notVerified }

/-- Outcome of `ZohoClient().get_user_phone_by_email(identifier)` inside
`request_password_reset`: a phone number, a falsy result (user absent or
phoneless), or a raised `ZohoException`. -/
inductive PhoneLookup
  | found (phone : String)
  | missing
  | lookupError
deriving DecidableEq, Repr

/-- The rate-limit count of `request_password_reset` lines 50-54: rows with
the same `identifier` and `created_at >= now - 1 hour`, with no filter on
status or target system. -/
def recentCount (table : List PasswordResetRequest) (identifier : String)
    (now : Time) : Nat :=
  (table.filter (fun r =>
    r.identifier == identifier &&
    decide (now ≤ r.created_at + 60 * RESET_REQUEST_EXPIRY_HOURS))).length

/-- `services.request_password_reset`: rate-limit guard against the trailing
1-hour window, Zoho phone lookup for `system ∈ {zoho, both}` (for `ad` the
phone stays `None`), then creation of a fresh `pending` request with a
1-hour TTL.  The random URL-safe token is passed in as `tok`
(`generate_token` draws it from `secrets`). -/
def newRequest (now : Time) (identifier : String) (system : System)
    (tok : String) : PasswordResetRequest :=
  { token := tok, system := system, identifier := identifier,
    status := .pending, created_at := now,
    expires_at := now + 60 * RESET_REQUEST_EXPIRY_HOURS,
    completed_at := none }

def request_password_reset (now : Time) (table : List PasswordResetRequest)
    (identifier : String) (system : System) (lookup : PhoneLookup) (tok : String) :
    List PasswordResetRequest × Except SsprError (PasswordResetRequest × Option String) :=
  if recentCount table identifier now ≥ MAX_RESET_REQUESTS_PER_HOUR then
    (table, .error .rateLimited)
  else
    let mkReq (phone : Option String) :
        List PasswordResetRequest × Except SsprError (PasswordResetRequest × Option String) :=
      let r : PasswordResetRequest := newRequest now identifier system tok
      (r :: table, .ok (r, phone))
    if system = .zoho ∨ system = .both then
      match lookup with
      | .found phone => mkReq (some phone)
      | .missing => (table, .error .accountNotFound)
      | .lookupError => (table, .error .zohoLookupError)
    else
      mkReq none

/-- Concrete fixture: a fresh `pending` request created at minute 0 with the
default 1-hour TTL. -/
def sampleReq : PasswordResetRequest :=
  { token := "req-token", system := .zoho, identifier := "user@example.com",
    status := .pending, created_at := 0, expires_at := 60, completed_at := none }

/-- Concrete fixture: a fresh `pending` OTP token created at minute 0 with
the default 10-minute TTL. -/
def sampleTok : OtpToken :=
  { code := "123456", method := .sms, status := .pending, attempts := 0,
    created_at := 0, expires_at := 10, validated_at := none }

/-- Concrete fixture: the sample token after a successful `validate_otp` at
minute 1. -/
def validatedTok : OtpToken :=
  { sampleTok with status := .validated, validated_at := some 1 }

/-- Concrete fixture: the sample request after a successful `validate_otp`. -/
def verifiedReq : PasswordResetRequest :=
  { sampleReq with status := .otp_validated }

/-- Concrete fixture: the sample request in the terminal `completed` state. -/
def completedReq : PasswordResetRequest :=
  { sampleReq with status := .completed }

/-- Concrete fixture: a verified request targeting both systems. -/
def bothReq : PasswordResetRequest :=
  { verifiedReq with system := .both }

/-- Concrete fixture: a verified request targeting only Active Directory. -/
def adReq : PasswordResetRequest :=
  { verifiedReq with system := .ad }

/-- Concrete fixture: two recent requests for the sample identifier. -/
def twoRecent : List PasswordResetRequest := [sampleReq, sampleReq]

/-- Concrete fixture: three recent requests for the sample identifier, all
already in terminal states. -/
def threeRecent : List PasswordResetRequest :=
  [completedReq, { sampleReq with status := .expired }, completedReq]

/-- Concrete fixture: a rewrite of every stored field the rate-limit filter
never reads (status, target system, completion timestamp). -/
def relabel (r : PasswordResetRequest) : PasswordResetRequest :=
  { r with status := .failed, system := .ad, completed_at := some 7 }

/-- The token returned by `findPending` satisfies the pending filter. -/
theorem findPending_status {tokens : List OtpToken} {t : OtpToken}
    (h : findPending tokens = some t) : t.status = .pending := by
  have hp := List.find?_some h
  simpa using hp

/-- C8: for a request with the 1-hour TTL, a `validate_otp` call made after
`expires_at` has passed fails with `requestExpired` and persists the
request's status as `expired`, leaving the tokens untouched. -/
theorem validate_otp_after_ttl_requestExpired
    (s : VState) (code : String) (now : Time)
    (httl : s.req.expires_at = s.req.created_at + 60 * RESET_REQUEST_EXPIRY_HOURS)
    (h : now > s.req.expires_at) :
    (validate_otp now s code).2 = .error .requestExpired ∧
    (validate_otp now s code).1.req.status = .expired ∧
    (validate_otp now s code).1.tokens = s.tokens := by
  simp [validate_otp, PasswordResetRequest.is_expired, h]

/-- C8 witness: request created at minute 0, TTL 1 hour, verification
attempted at minute 61. -/
theorem validate_otp_after_ttl_requestExpired_witness :
    sampleReq.expires_at = sampleReq.created_at + 60 * RESET_REQUEST_EXPIRY_HOURS ∧
    (61 : Time) > sampleReq.expires_at ∧
    ((validate_otp 61 ⟨sampleReq, [sampleTok]⟩ "123456").2 = .error .requestExpired ∧
     (validate_otp 61 ⟨sampleReq, [sampleTok]⟩ "123456").1.req.status = .expired ∧
     (validate_otp 61 ⟨sampleReq, [sampleTok]⟩ "123456").1.tokens = [sampleTok]) :=
  ⟨by decide, by decide,
   validate_otp_after_ttl_requestExpired ⟨sampleReq, [sampleTok]⟩ "123456" 61
     (by decide) (by decide)⟩

/-- `increment_attempts` adds exactly one attempt. -/
theorem increment_attempts_attempts (t : OtpToken) :
    (OtpToken.increment_attempts t).attempts = t.attempts + 1 := by
  simp only [OtpToken.increment_attempts]
  split <;> rfl

/-- `increment_attempts` flips the status to `exceeded_attempts` exactly
when the incremented counter reaches the ceiling, and keeps it otherwise. -/
theorem increment_attempts_status (t : OtpToken) :
    (OtpToken.increment_attempts t).status =
      (if t.attempts + 1 ≥ MAX_OTP_ATTEMPTS then OtpStatus.exceeded_attempts
       else t.status) := by
  simp only [OtpToken.increment_attempts, OtpToken.has_exceeded_attempts]
  split
  · rename_i h
    simp only [decide_eq_true_eq] at h
    rw [if_pos h]
  · rename_i h
    simp only [decide_eq_true_eq] at h
    rw [if_neg h]

/-- C6: on a live request with a live pending token below the attempt
ceiling, a submitted code whose trimmed form differs from the stored code
returns `valid = false` (no error), leaves the request untouched, and
updates the pending token by `increment_attempts`, which adds exactly one
attempt and sets status `exceeded_attempts` exactly when the incremented
counter reaches the ceiling of 3. -/
theorem validate_otp_wrong_code_counts_attempt
    (now : Time) (s : VState) (code : String) (t : OtpToken)
    (hreq : ¬ now > s.req.expires_at)
    (hfind : findPending s.tokens = some t)
    (htok : ¬ now > t.expires_at)
    (hatt : t.attempts < MAX_OTP_ATTEMPTS)
    (hmm : t.code ≠ strip code) :
    validate_otp now s code =
      (⟨s.req, updateFirstPending s.tokens OtpToken.increment_attempts⟩, .ok false) ∧
    (OtpToken.increment_attempts t).attempts = t.attempts + 1 ∧
    ((OtpToken.increment_attempts t).status = .exceeded_attempts ↔
      t.attempts + 1 = MAX_OTP_ATTEMPTS) := by
  have hp : t.status = .pending := findPending_status hfind
  refine ⟨?_, increment_attempts_attempts t, ?_⟩
  · simp [validate_otp, PasswordResetRequest.is_expired, OtpToken.is_expired,
      OtpToken.has_exceeded_attempts, hreq, hfind, htok, hmm]
    omega
  · rw [increment_attempts_status, hp]
    by_cases h3 : t.attempts + 1 ≥ MAX_OTP_ATTEMPTS
    · rw [if_pos h3]
      simp only [MAX_OTP_ATTEMPTS] at hatt h3 ⊢
      constructor
      · intro _; omega
      · intro _; trivial
    · rw [if_neg h3]
      simp only [MAX_OTP_ATTEMPTS] at h3 ⊢
      constructor
      · intro hcon; exact absurd hcon (by decide)
      · intro heq; omega

/-- C6 witness: submitting the wrong code at minute 1 against the fresh
sample token. -/
theorem validate_otp_wrong_code_counts_attempt_witness :
    (¬ (1 : Time) > sampleReq.expires_at) ∧
    findPending [sampleTok] = some sampleTok ∧
    (¬ (1 : Time) > sampleTok.expires_at) ∧
    sampleTok.attempts < MAX_OTP_ATTEMPTS ∧
    sampleTok.code ≠ strip "000000" ∧
    (validate_otp 1 ⟨sampleReq, [sampleTok]⟩ "000000" =
      (⟨sampleReq, updateFirstPending [sampleTok] OtpToken.increment_attempts⟩,
       .ok false) ∧
     (OtpToken.increment_attempts sampleTok).attempts = sampleTok.attempts + 1 ∧
     ((OtpToken.increment_attempts sampleTok).status = .exceeded_attempts ↔
       sampleTok.attempts + 1 = MAX_OTP_ATTEMPTS)) :=
  ⟨by decide, by decide, by decide, by decide, by decide,
   validate_otp_wrong_code_counts_attempt 1 ⟨sampleReq, [sampleTok]⟩ "000000"
     sampleTok (by decide) (by decide) (by decide) (by decide) (by decide)⟩

/-- `increment_attempts` as a single record update: one more attempt, and
status `exceeded_attempts` exactly when the new counter reaches the
ceiling. -/
theorem increment_attempts_eq (t : OtpToken) :
    OtpToken.increment_attempts t =
      { t with
          attempts := t.attempts + 1,
          status := (if t.attempts + 1 ≥ MAX_OTP_ATTEMPTS then
            OtpStatus.exceeded_attempts else t.status) } := by
  simp only [OtpToken.increment_attempts, OtpToken.has_exceeded_attempts]
  split
  · rename_i h
    simp only [decide_eq_true_eq] at h
    rw [if_pos h]
  · rename_i h
    simp only [decide_eq_true_eq] at h
    rw [if_neg h]

/-- C2 counterexample: with a fresh pending token (code `123456`), three
wrong submissions of `000000` at minute 1 leave the token with 3 attempts
and status `exceeded_attempts`; the fourth submission of the correct code
then fails with `noPendingOtp` — not with `attemptsExceeded` as the claim
states — because the token's status is no longer `pending`. -/
theorem fourth_attempt_error_kind_cex :
    ((validate_otp 1 ((validate_otp 1 ((validate_otp 1
        ⟨sampleReq, [sampleTok]⟩ "000000").1) "000000").1) "000000").1).tokens =
      [{ sampleTok with attempts := 3, status := .exceeded_attempts }] ∧
    (validate_otp 1 ((validate_otp 1 ((validate_otp 1 ((validate_otp 1
        ⟨sampleReq, [sampleTok]⟩ "000000").1) "000000").1) "000000").1) "123456").2 =
      .error .noPendingOtp ∧
    (validate_otp 1 ((validate_otp 1 ((validate_otp 1 ((validate_otp 1
        ⟨sampleReq, [sampleTok]⟩ "000000").1) "000000").1) "000000").1) "123456").2 ≠
      .error .attemptsExceeded := by
  refine ⟨rfl, rfl, ?_⟩
  have h : (validate_otp 1 ((validate_otp 1 ((validate_otp 1 ((validate_otp 1
      ⟨sampleReq, [sampleTok]⟩ "000000").1) "000000").1) "000000").1) "123456").2 =
      .error .noPendingOtp := rfl
  rw [h]
  simp

/-- C2 amended: three consecutive wrong submissions against a fresh pending
token leave it with `attempts = 3` and status `exceeded_attempts`; the
fourth submission — with any code, the correct one included — fails, but
with the `noPendingOtp` error rather than `attemptsExceeded` (the token no
longer matches the `status = pending` lookup), and never returns
`valid = true`. -/
theorem three_wrong_then_fourth_noPendingOtp
    (now : Time) (req : PasswordResetRequest) (t : OtpToken) (w c : String)
    (hreq : ¬ now > req.expires_at)
    (ht : t.status = .pending)
    (hexp : ¬ now > t.expires_at)
    (hatt : t.attempts = 0)
    (hmm : t.code ≠ strip w) :
    ((validate_otp now ((validate_otp now ((validate_otp now
        ⟨req, [t]⟩ w).1) w).1) w).1).tokens =
      [{ t with attempts := 3, status := .exceeded_attempts }] ∧
    validate_otp now ((validate_otp now ((validate_otp now ((validate_otp now
        ⟨req, [t]⟩ w).1) w).1) w).1) c =
      (((validate_otp now ((validate_otp now ((validate_otp now
          ⟨req, [t]⟩ w).1) w).1) w).1), .error .noPendingOtp) := by
  have h1 : validate_otp now ⟨req, [t]⟩ w =
      (⟨req, [{ t with attempts := 1, status := OtpStatus.pending }]⟩, .ok false) := by
    unfold validate_otp
    simp [PasswordResetRequest.is_expired, OtpToken.is_expired,
      OtpToken.has_exceeded_attempts, findPending, updateFirstPending,
      increment_attempts_eq, MAX_OTP_ATTEMPTS, hreq, ht, hexp, hatt, hmm]
  have h2 : validate_otp now
      ⟨req, [{ t with attempts := 1, status := OtpStatus.pending }]⟩ w =
      (⟨req, [{ t with attempts := 2, status := OtpStatus.pending }]⟩, .ok false) := by
    unfold validate_otp
    simp [PasswordResetRequest.is_expired, OtpToken.is_expired,
      OtpToken.has_exceeded_attempts, findPending, updateFirstPending,
      increment_attempts_eq, MAX_OTP_ATTEMPTS, hreq, hexp, hmm]
  have h3 : validate_otp now
      ⟨req, [{ t with attempts := 2, status := OtpStatus.pending }]⟩ w =
      (⟨req, [{ t with attempts := 3, status := OtpStatus.exceeded_attempts }]⟩,
       .ok false) := by
    unfold validate_otp
    simp [PasswordResetRequest.is_expired, OtpToken.is_expired,
      OtpToken.has_exceeded_attempts, findPending, updateFirstPending,
      increment_attempts_eq, MAX_OTP_ATTEMPTS, hreq, hexp, hmm]
  have h4 : validate_otp now
      ⟨req, [{ t with attempts := 3, status := OtpStatus.exceeded_attempts }]⟩ c =
      (⟨req, [{ t with attempts := 3, status := OtpStatus.exceeded_attempts }]⟩,
       .error .noPendingOtp) := by
    unfold validate_otp
    simp [PasswordResetRequest.is_expired, findPending, hreq]
  simp only [h1, h2, h3, h4]
  exact ⟨trivial, trivial⟩

/-- C2 amended witness: the concrete run of the counterexample scenario,
through the general theorem. -/
theorem three_wrong_then_fourth_noPendingOtp_witness :
    (¬ (1 : Time) > sampleReq.expires_at) ∧
    sampleTok.status = .pending ∧
    (¬ (1 : Time) > sampleTok.expires_at) ∧
    sampleTok.attempts = 0 ∧
    sampleTok.code ≠ strip "000000" ∧
    (((validate_otp 1 ((validate_otp 1 ((validate_otp 1
        ⟨sampleReq, [sampleTok]⟩ "000000").1) "000000").1) "000000").1).tokens =
      [{ sampleTok with attempts := 3, status := .exceeded_attempts }] ∧
     validate_otp 1 ((validate_otp 1 ((validate_otp 1 ((validate_otp 1
        ⟨sampleReq, [sampleTok]⟩ "000000").1) "000000").1) "000000").1) "654321" =
      (((validate_otp 1 ((validate_otp 1 ((validate_otp 1
          ⟨sampleReq, [sampleTok]⟩ "000000").1) "000000").1) "000000").1),
       .error .noPendingOtp)) :=
  ⟨by decide, by decide, by decide, by decide, by decide,
   three_wrong_then_fourth_noPendingOtp 1 sampleReq sampleTok "000000" "654321"
     (by decide) (by decide) (by decide) (by decide) (by decide)⟩

/-- C1 counterexample: after a successful `Verify` (state `otp_validated`
with a validated, unexpired token) and a first successful `Commit` at
minute 2 (request `completed`), an immediate second `Commit` does NOT fail
with `notVerified`: it invokes the identity provider again and returns
success, because `confirm_password_reset` never checks the request's
status, only the existence of a validated unexpired token. -/
theorem second_commit_remutates_cex :
    (confirm_password_reset 2 ⟨verifiedReq, [validatedTok]⟩ "NewPass1"
        .success).state.req.status = .completed ∧
    (confirm_password_reset 2 (confirm_password_reset 2 ⟨verifiedReq, [validatedTok]⟩
        "NewPass1" .success).state "NewPass1" .success).zohoCalled = true ∧
    (confirm_password_reset 2 (confirm_password_reset 2 ⟨verifiedReq, [validatedTok]⟩
        "NewPass1" .success).state "NewPass1" .success).result = .ok true ∧
    (confirm_password_reset 2 (confirm_password_reset 2 ⟨verifiedReq, [validatedTok]⟩
        "NewPass1" .success).state "NewPass1" .success).result ≠
      .error .notVerified ∧
    (confirm_password_reset 2 (confirm_password_reset 2 ⟨verifiedReq, [validatedTok]⟩
        "NewPass1" .success).state "NewPass1" .success).state.req.status = .completed := by
  refine ⟨rfl, rfl, rfl, ?_, rfl⟩
  have h : (confirm_password_reset 2 (confirm_password_reset 2
      ⟨verifiedReq, [validatedTok]⟩ "NewPass1" .success).state "NewPass1"
      .success).result = .ok true := rfl
  rw [h]
  simp

/-- C1 amended: `Commit` gates only on the presence of a validated token
whose own TTL has not elapsed, never on the request's status.  For every
unexpired request without such a token — whatever its status — `Commit`
fails with `notVerified` and does not invoke the identity provider; for
every unexpired request WITH such a token — a `completed` one included —
the provider is invoked again, and on success the request is (re-)marked
`completed` with success returned. -/
theorem commit_gates_on_validated_otp_only
    (now : Time) (s : VState) (pw : String) (o : ZohoOutcome)
    (hlive : ¬ now > s.req.expires_at) :
    (hasValidatedUnexpired now s.tokens = false →
      confirm_password_reset now s pw o =
        { state := s, zohoCalled := false, adBlockReached := false,
          result := .error .notVerified }) ∧
    (hasValidatedUnexpired now s.tokens = true →
      (s.req.system = .zoho ∨ s.req.system = .both) →
      ((confirm_password_reset now s pw o).zohoCalled = true ∧
       (o = .success →
         (confirm_password_reset now s pw o).state.req.status = .completed ∧
         (confirm_password_reset now s pw o).result = .ok true))) := by
  constructor
  · intro hno
    simp [confirm_password_reset, PasswordResetRequest.is_expired, hlive, hno]
  · intro hyes hsys
    rcases hsys with h | h <;>
      cases o <;>
        simp [confirm_password_reset, PasswordResetRequest.is_expired, hlive, hyes, h]

/-- C1 amended witness: at minute 2, a `completed` request with no token
fails with `notVerified`, while a `completed` request still holding the
validated unexpired token is re-committed with the provider invoked. -/
theorem commit_gates_on_validated_otp_only_witness :
    (¬ (2 : Time) > completedReq.expires_at) ∧
    (confirm_password_reset 2 ⟨completedReq, []⟩ "NewPass1" .success =
      { state := ⟨completedReq, []⟩, zohoCalled := false, adBlockReached := false,
        result := .error .notVerified }) ∧
    ((confirm_password_reset 2 ⟨completedReq, [validatedTok]⟩ "NewPass1"
        .success).zohoCalled = true ∧
     (confirm_password_reset 2 ⟨completedReq, [validatedTok]⟩ "NewPass1"
        .success).state.req.status = .completed ∧
     (confirm_password_reset 2 ⟨completedReq, [validatedTok]⟩ "NewPass1"
        .success).result = .ok true) := by
  have A := commit_gates_on_validated_otp_only 2 ⟨completedReq, []⟩ "NewPass1"
    .success (by decide)
  have B := commit_gates_on_validated_otp_only 2 ⟨completedReq, [validatedTok]⟩
    "NewPass1" .success (by decide)
  have B2 := B.2 (by decide) (Or.inl rfl)
  exact ⟨by decide, A.1 (by decide), B2.1, (B2.2 rfl).1, (B2.2 rfl).2⟩

/-- C3: evaluating `confirm_password_reset` on a verified request targeting
`both` systems with a successful Zoho call: the code marks the request
`completed` and returns success after the Zoho mutation alone — the AD
block (a log-only TODO) is never even reached, contradicting the claim
that every configured target must be attempted and `completed` only set
when all succeed. -/
theorem both_system_completed_without_ad :
    (confirm_password_reset 2 ⟨bothReq, [validatedTok]⟩ "NewPass1"
        .success).result = .ok true ∧
    (confirm_password_reset 2 ⟨bothReq, [validatedTok]⟩ "NewPass1"
        .success).state.req.status = .completed ∧
    (confirm_password_reset 2 ⟨bothReq, [validatedTok]⟩ "NewPass1"
        .success).adBlockReached = false :=
  ⟨rfl, rfl, rfl⟩

/-- C4 counterexample: a request stored as `completed` whose `expires_at`
(minute 60) has passed is re-mutated by `validate_otp` at minute 61: its
status is overwritten to `expired`, so `completed` is not a sink. -/
theorem completed_overwritten_to_expired_cex :
    completedReq.status = .completed ∧
    (validate_otp 61 ⟨completedReq, []⟩ "123456").1.req.status = .expired ∧
    (validate_otp 61 ⟨completedReq, []⟩ "123456").1.req.status ≠ .completed := by
  exact ⟨rfl, rfl, by decide⟩

/-- C4 amended: once `expires_at` has passed, every workflow operation
rewrites the stored status — whatever it was — to `expired` while raising
`requestExpired`.  Hence a stored `expired` status is preserved by all
three operations after the TTL, but a stored `completed` status is
overwritten to `expired` rather than left untouched. -/
theorem after_ttl_all_ops_mark_expired
    (now : Time) (s : VState) (cd code pw : String) (m : OtpMethod)
    (o : ZohoOutcome) (h : now > s.req.expires_at) :
    (generate_otp now s cd m).1.req.status = .expired ∧
    (generate_otp now s cd m).2 = .error .requestExpired ∧
    (validate_otp now s code).1.req.status = .expired ∧
    (validate_otp now s code).2 = .error .requestExpired ∧
    (confirm_password_reset now s pw o).state.req.status = .expired ∧
    (confirm_password_reset now s pw o).result = .error .requestExpired := by
  simp [generate_otp, validate_otp, confirm_password_reset,
    PasswordResetRequest.is_expired, h]

/-- C4 amended witness: the `expired`-status request past its TTL stays
`expired` under all three operations, and the `completed` one is
overwritten. -/
theorem after_ttl_all_ops_mark_expired_witness :
    ((61 : Time) > completedReq.expires_at) ∧
    ((generate_otp 61 ⟨completedReq, []⟩ "654321" .sms).1.req.status = .expired ∧
     (generate_otp 61 ⟨completedReq, []⟩ "654321" .sms).2 = .error .requestExpired ∧
     (validate_otp 61 ⟨completedReq, []⟩ "123456").1.req.status = .expired ∧
     (validate_otp 61 ⟨completedReq, []⟩ "123456").2 = .error .requestExpired ∧
     (confirm_password_reset 61 ⟨completedReq, []⟩ "NewPass1"
        .success).state.req.status = .expired ∧
     (confirm_password_reset 61 ⟨completedReq, []⟩ "NewPass1"
        .success).result = .error .requestExpired) :=
  ⟨by decide,
   after_ttl_all_ops_mark_expired 61 ⟨completedReq, []⟩ "654321" "123456"
     "NewPass1" .sms .success (by decide)⟩

/-- C5: when the Zoho mutation inside `Commit` fails (falsy return) or
raises, the request is left `otp_validated` — never `failed` — the error is
surfaced, the tokens are untouched, and a later `Commit` retry against the
still-validated, unexpired token succeeds without a new `Verify`. -/
theorem commit_failure_no_regression_then_retry
    (now now2 : Time) (s : VState) (pw pw2 : String) (o : ZohoOutcome)
    (hlive : ¬ now > s.req.expires_at)
    (hotp : hasValidatedUnexpired now s.tokens = true)
    (hsys : s.req.system = .zoho ∨ s.req.system = .both)
    (ho : o = .failure ∨ o = .exception)
    (hlive2 : ¬ now2 > s.req.expires_at)
    (hotp2 : hasValidatedUnexpired now2 s.tokens = true) :
    (confirm_password_reset now s pw o).state.req.status = .otp_validated ∧
    (confirm_password_reset now s pw o).state.req.status ≠ .failed ∧
    (∃ e, (confirm_password_reset now s pw o).result = .error e) ∧
    (confirm_password_reset now s pw o).state.tokens = s.tokens ∧
    (confirm_password_reset now2
        (confirm_password_reset now s pw o).state pw2 .success).result = .ok true ∧
    (confirm_password_reset now2
        (confirm_password_reset now s pw o).state pw2
        .success).state.req.status = .completed := by
  rcases hsys with h | h <;> rcases ho with ho | ho <;> subst ho <;>
    simp [confirm_password_reset, PasswordResetRequest.is_expired,
      hlive, hotp, hlive2, hotp2, h]

/-- C5 witness: Zoho failure at minute 2, retry at minute 3. -/
theorem commit_failure_no_regression_then_retry_witness :
    (¬ (2 : Time) > verifiedReq.expires_at) ∧
    hasValidatedUnexpired 2 [validatedTok] = true ∧
    (verifiedReq.system = .zoho ∨ verifiedReq.system = .both) ∧
    (¬ (3 : Time) > verifiedReq.expires_at) ∧
    hasValidatedUnexpired 3 [validatedTok] = true ∧
    ((confirm_password_reset 2 ⟨verifiedReq, [validatedTok]⟩ "NewPass1"
        .failure).state.req.status = .otp_validated ∧
     (confirm_password_reset 2 ⟨verifiedReq, [validatedTok]⟩ "NewPass1"
        .failure).state.req.status ≠ .failed ∧
     (∃ e, (confirm_password_reset 2 ⟨verifiedReq, [validatedTok]⟩ "NewPass1"
        .failure).result = .error e) ∧
     (confirm_password_reset 2 ⟨verifiedReq, [validatedTok]⟩ "NewPass1"
        .failure).state.tokens = [validatedTok] ∧
     (confirm_password_reset 3 (confirm_password_reset 2
        ⟨verifiedReq, [validatedTok]⟩ "NewPass1" .failure).state "NewPass2"
        .success).result = .ok true ∧
     (confirm_password_reset 3 (confirm_password_reset 2
        ⟨verifiedReq, [validatedTok]⟩ "NewPass1" .failure).state "NewPass2"
        .success).state.req.status = .completed) :=
  ⟨by decide, by decide, Or.inl rfl, by decide, by decide,
   commit_failure_no_regression_then_retry 2 3 ⟨verifiedReq, [validatedTok]⟩
     "NewPass1" "NewPass2" .failure (by decide) (by decide) (Or.inl rfl)
     (Or.inl rfl) (by decide) (by decide)⟩

/-- C9: on an unexpired AD-only request holding a validated unexpired
token, `confirm_password_reset` returns success while leaving the whole
state untouched (status and `completed_at` included) and never invoking the
Zoho credential mutation — only the log-only AD block runs. -/
theorem ad_only_commit_is_noop_success
    (now : Time) (s : VState) (pw : String) (o : ZohoOutcome)
    (hsys : s.req.system = .ad)
    (hlive : ¬ now > s.req.expires_at)
    (hotp : hasValidatedUnexpired now s.tokens = true) :
    confirm_password_reset now s pw o =
      { state := s, zohoCalled := false, adBlockReached := true,
        result := .ok true } := by
  simp [confirm_password_reset, PasswordResetRequest.is_expired,
    hlive, hotp, hsys]

/-- C9 witness: the AD-only verified request at minute 2. -/
theorem ad_only_commit_is_noop_success_witness :
    adReq.system = .ad ∧
    (¬ (2 : Time) > adReq.expires_at) ∧
    hasValidatedUnexpired 2 [validatedTok] = true ∧
    confirm_password_reset 2 ⟨adReq, [validatedTok]⟩ "NewPass1" .success =
      { state := ⟨adReq, [validatedTok]⟩, zohoCalled := false,
        adBlockReached := true, result := .ok true } :=
  ⟨rfl, by decide, by decide,
   ad_only_commit_is_noop_success 2 ⟨adReq, [validatedTok]⟩ "NewPass1"
     .success rfl (by decide) (by decide)⟩

/-- C7: the rate-limit ceiling is 3: a `Start` call with exactly 2 prior
rows for the identifier inside the trailing 1-hour window is accepted and
creates a fresh `pending` request, and a call with 3 or more windowed rows
is rejected with `rateLimited`, leaving the store untouched. -/
theorem rate_limit_boundary
    (now : Time) (table : List PasswordResetRequest) (ident : String)
    (sys : System) (lookup : PhoneLookup) (tok : String) :
    MAX_RESET_REQUESTS_PER_HOUR = 3 ∧
    (recentCount table ident now = 2 →
      (sys = .ad ∨ ∃ p, lookup = .found p) →
      ∃ r phone, request_password_reset now table ident sys lookup tok =
        (r :: table, .ok (r, phone)) ∧ r.status = .pending ∧
        r.created_at = now ∧
        r.expires_at = now + 60 * RESET_REQUEST_EXPIRY_HOURS) ∧
    (3 ≤ recentCount table ident now →
      request_password_reset now table ident sys lookup tok =
        (table, .error .rateLimited)) := by
  refine ⟨rfl, ?_, ?_⟩
  · intro h2 hl
    rcases hl with hsys | ⟨p, hp⟩
    · subst hsys
      refine ⟨newRequest now ident .ad tok, none, ?_, rfl, rfl, rfl⟩
      simp [request_password_reset, MAX_RESET_REQUESTS_PER_HOUR, h2]
    · subst hp
      cases sys with
      | zoho =>
        refine ⟨newRequest now ident .zoho tok, some p, ?_, rfl, rfl, rfl⟩
        simp [request_password_reset, MAX_RESET_REQUESTS_PER_HOUR, h2]
      | ad =>
        refine ⟨newRequest now ident .ad tok, none, ?_, rfl, rfl, rfl⟩
        simp [request_password_reset, MAX_RESET_REQUESTS_PER_HOUR, h2]
      | both =>
        refine ⟨newRequest now ident .both tok, some p, ?_, rfl, rfl, rfl⟩
        simp [request_password_reset, MAX_RESET_REQUESTS_PER_HOUR, h2]
  · intro h3
    simp [request_password_reset, MAX_RESET_REQUESTS_PER_HOUR, h3]

/-- C7 witness: at minute 30, two prior rows let the 3rd call through; three
prior rows reject the 4th. -/
theorem rate_limit_boundary_witness :
    recentCount twoRecent "user@example.com" 30 = 2 ∧
    (∃ r phone,
      request_password_reset 30 twoRecent "user@example.com" .ad .missing "tk" =
        (r :: twoRecent, .ok (r, phone)) ∧ r.status = .pending ∧
        r.created_at = 30 ∧
        r.expires_at = 30 + 60 * RESET_REQUEST_EXPIRY_HOURS) ∧
    3 ≤ recentCount threeRecent "user@example.com" 30 ∧
    request_password_reset 30 threeRecent "user@example.com" .zoho
        (.found "+5511999") "tk" = (threeRecent, .error .rateLimited) :=
  ⟨by decide,
   (rate_limit_boundary 30 twoRecent "user@example.com" .ad .missing "tk").2.1
     (by decide) (Or.inl rfl),
   by decide,
   (rate_limit_boundary 30 threeRecent "user@example.com" .zoho
     (.found "+5511999") "tk").2.2 (by decide)⟩

/-- C10: the windowed count gating `Start` reads only the identifier and
`created_at` of each stored row: any rewrite of the other fields — status
and target system included — leaves the count unchanged; and whenever the
count reaches 3 the next `Start` is rejected, so three already-terminal
(completed or expired) rows still block a fourth call inside the hour. -/
theorem rate_window_ignores_status_and_system
    (table : List PasswordResetRequest) (ident : String) (now : Time)
    (f : PasswordResetRequest → PasswordResetRequest)
    (hf : ∀ r, (f r).identifier = r.identifier ∧ (f r).created_at = r.created_at) :
    recentCount (table.map f) ident now = recentCount table ident now ∧
    (3 ≤ recentCount table ident now →
      ∀ sys lookup tok, request_password_reset now table ident sys lookup tok =
        (table, .error .rateLimited)) := by
  constructor
  · induction table with
    | nil => rfl
    | cons r rs ih =>
      simp only [recentCount, List.map_cons, List.filter_cons] at ih ⊢
      rw [(hf r).1, (hf r).2]
      split <;> simp [ih]
  · intro h3 sys lookup tok
    simp [request_password_reset, MAX_RESET_REQUESTS_PER_HOUR, h3]

/-- C10 witness: rewriting three terminal rows to arbitrary status and
system keeps the count at 3, and the fourth `Start` is rejected. -/
theorem rate_window_ignores_status_and_system_witness :
    (∀ r : PasswordResetRequest,
      (relabel r).identifier = r.identifier ∧
      (relabel r).created_at = r.created_at) ∧
    (recentCount (threeRecent.map relabel) "user@example.com" 30 =
      recentCount threeRecent "user@example.com" 30 ∧
     (3 ≤ recentCount threeRecent "user@example.com" 30 →
       ∀ sys lookup tok,
         request_password_reset 30 threeRecent "user@example.com" sys lookup tok =
           (threeRecent, .error .rateLimited))) :=
  ⟨fun r => ⟨rfl, rfl⟩,
   rate_window_ignores_status_and_system threeRecent "user@example.com" 30
     relabel (fun r => ⟨rfl, rfl⟩)⟩

end Sspr
